import Mathlib

/-!
# Njukasino client session reconciler — verification development

This file gives a shallow embedding of the client-side session reconciler of
the Njukasino card-game web app and proves properties about it.

The embedding follows the source closely:

* the data model is `src/src/types/game.ts` (`CardType`, `Player`, `GameState`,
  `LobbyGame`, `LoadingStates`);
* the reconciler is the `GameProvider` of the game context (the version with
  URL rehydration: `quitGame`, `tryRecover`, the lobby/game WebSocket
  `onmessage` handlers, the 3-second polling fallback, `createLobby`,
  `joinLobby`, `drawCard`, `discardCard`, `startTutorial`);
* the page layer is `MultiplayerLobbyPage` (`handleCreateLobby`,
  `handleJoinLobby`, the `InsufficientFundsModal` props), `GameRoomPage`
  (`handleQuitGame`) and `EnhancedBottomMenu` (`handleConfirmQuit`);
* the UI gating predicates are `canDraw` and the hand card `disabled`
  condition of `GameTable.tsx`.

Each reconciler operation is translated as a function producing a `List Step`
of the React `setState` calls, network requests, WebSocket operations and
navigations its body performs, in source order.  Reads inside a handler come
from the render snapshot the closure captured (React `useCallback` /
`useEffect` semantics), which is the `ProviderState` argument; the resulting
state is obtained by folding `applyStep` over the step list.  Network
responses are supplied by a `Backend` oracle giving, for each endpoint, the
response the server returns during the step being modelled.  Pure UI side
effects of the source (console logging, debug beacons, sounds, haptics,
animation bookkeeping) are elided; they touch no session state.
-/

namespace Njuka

/-! ## Data model (src/src/types/game.ts) -/

/-- A playing card: `{ value: string; suit: string }`. -/
structure CardType where
  value : String
  suit : String
deriving DecidableEq, Repr

/-- A player inside a `GameState`. -/
structure Player where
  name : String
  hand : List CardType
  is_cpu : Bool
  wallet : Int
deriving DecidableEq, Repr

/-- The full game snapshot the server sends.  Optional TypeScript fields
(`winner?`, `game_over?`, ...) become `Option`s; JavaScript reads of an absent
field see `undefined`, which is falsy. -/
structure GameState where
  players : List Player
  pot : List CardType
  deck : List CardType
  current_player : Nat
  has_drawn : Bool
  mode : String
  id : String
  max_players : Nat
  pot_amount : Int
  entry_fee : Int
  winner : Option String := none
  winner_hand : Option (List CardType) := none
  game_over : Option Bool := none
  any_player_has_drawn : Option Bool := none
  winner_amount : Option Int := none
  house_cut : Option Int := none
deriving DecidableEq, Repr

/-- A lobby snapshot. -/
structure LobbyGame where
  id : String
  host : String
  players : List String
  max_players : Nat
  created_at : String
  started : Option Bool := none
  game_id : Option String := none
  entry_fee : Int
  host_uid : String
  player_uids : List String
deriving DecidableEq, Repr

/-- The reconciler's in-flight flags. -/
structure LoadingStates where
  starting : Bool
  joining : Bool
  drawing : Bool
  discarding : Bool
  cpuMoving : Bool
deriving DecidableEq, Repr

/-- JavaScript truthiness of an optional boolean field (`undefined` is falsy). -/
def jsTruthyBool (b : Option Bool) : Bool := b.getD false

/-- JavaScript truthiness of an optional string field (`undefined` and `""`
are falsy). -/
def jsTruthyStr (s : Option String) : Bool :=
  match s with
  | some v => v != ""
  | none => false

/-- `x || 0` on an optional numeric field (`undefined` and `0` give `0`). -/
def jsOrZero (x : Option Int) : Int :=
  match x with
  | some v => if v == 0 then 0 else v
  | none => 0

/-! ## WebSocket connections

`WebSocket.OPEN` is the numeric constant `1`; the code only ever compares
`readyState` against it. -/

/-- `WebSocket.OPEN`. -/
def WS_OPEN : Nat := 1

/-- The part of a WebSocket object the reconciler reads. -/
structure WSConn where
  readyState : Nat
deriving DecidableEq, Repr

/-! ## Reconciler state

The `useState` cells of `GameProvider` (plus the tutorial flags). -/

structure ProviderState where
  gameState : Option GameState
  gameId : Option String
  lobby : Option LobbyGame
  error : Option String
  loadingStates : LoadingStates
  gameWS : Option WSConn
  lobbyWS : Option WSConn
  isRehydrating : Bool
  isTutorial : Bool
  tutorialStep : Nat
  isGuideVisible : Bool
deriving DecidableEq, Repr

/-! ## Effects -/

/-- The network requests the reconciler can issue (`GameService`). -/
inductive Request where
  | getGame (gameId : String)
  | getLobby (lobbyId : String)
  | getLobbies
  | createLobby (host hostUid : String) (maxPlayers : Nat) (entryFee : Int)
  | joinLobby (lobbyId player playerUid : String)
  | createNewGame (mode playerName playerUid : String) (cpuCount : Nat) (entryFee : Int)
  | drawCard (gameId : String)
  | discardCard (gameId : String) (cardIndex : Nat)
  | quitGame (gameId playerUid : String)
  | quitLobby (lobbyId playerUid : String)
  | cancelLobby (lobbyId hostUid : String)
  | startLobby (lobbyId hostUid : String)
deriving DecidableEq, Repr

/-- Which `loadingStates` field a `setLoadingStates(prev => ...)` call updates. -/
inductive LoadingField where
  | starting
  | joining
  | drawing
  | discarding
  | cpuMoving
deriving DecidableEq, Repr

/-- One primitive action of a reconciler operation, in source order:
a `setX` state write, a network request, a WebSocket operation, or a
router navigation. -/
inductive Step where
  | setGameState (v : Option GameState)
  | setGameId (v : Option String)
  | setLobby (v : Option LobbyGame)
  | setError (v : Option String)
  | setLoading (f : LoadingField) (v : Bool)
  | setGameWS (v : Option WSConn)
  | setLobbyWS (v : Option WSConn)
  | setIsRehydrating (v : Bool)
  | setIsTutorial (v : Bool)
  | setTutorialStep (v : Nat)
  | setGuideVisible (v : Bool)
  | setShowQuitConfirm (v : Bool)
  | closeGameWS
  | closeLobbyWS
  | wsSend (payloadType : String)
  | request (r : Request)
  | navigate (path : String)
deriving DecidableEq, Repr

def setLoadingField (ls : LoadingStates) : LoadingField → Bool → LoadingStates
  | .starting, v => { ls with starting := v }
  | .joining, v => { ls with joining := v }
  | .drawing, v => { ls with drawing := v }
  | .discarding, v => { ls with discarding := v }
  | .cpuMoving, v => { ls with cpuMoving := v }

/-- Apply one step to the provider state.  External effects (requests,
socket close/send, navigation, the quit-confirm modal local to the bottom
menu component) do not change the provider state. -/
def applyStep (s : ProviderState) : Step → ProviderState
  | .setGameState v => { s with gameState := v }
  | .setGameId v => { s with gameId := v }
  | .setLobby v => { s with lobby := v }
  | .setError v => { s with error := v }
  | .setLoading f v => { s with loadingStates := setLoadingField s.loadingStates f v }
  | .setGameWS v => { s with gameWS := v }
  | .setLobbyWS v => { s with lobbyWS := v }
  | .setIsRehydrating v => { s with isRehydrating := v }
  | .setIsTutorial v => { s with isTutorial := v }
  | .setTutorialStep v => { s with tutorialStep := v }
  | .setGuideVisible v => { s with isGuideVisible := v }
  | .setShowQuitConfirm _ => s
  | .closeGameWS => s
  | .closeLobbyWS => s
  | .wsSend _ => s
  | .request _ => s
  | .navigate _ => s

def applySteps (s : ProviderState) (steps : List Step) : ProviderState :=
  steps.foldl applyStep s

/-- The server responses observed by the operation being modelled.
`getLobby` may resolve with a falsy body (the code checks `if (lobbyData)`),
hence the inner `Option`.  A `getGame` that resolves with a falsy body is
observationally a rejection at every call site (the rehydration path throws
`"Game not found"`, the others fault on the first property access inside the
same `try`), so it is folded into `Except.error`. -/
structure Backend where
  getGame : String → Except String GameState
  getLobby : String → Except String (Option LobbyGame)
  createLobby : String → String → Nat → Int → Except String LobbyGame
  joinLobby : String → String → String → Except String (LobbyGame × Option GameState)
  createNewGame : String → String → String → Nat → Int → Except String GameState
  drawCard : String → Except String GameState
  discardCard : String → Nat → Except String GameState
  quitGame : String → String → Except String Unit

/-! ## Reconciler operations (GameProvider) -/

/-- `quitGame` (GameProvider): close both WebSockets, then
`setGameState(null); setLobby(null); setGameId(null); setError(null)`. -/
def quitGameSteps (s : ProviderState) : List Step :=
  (match s.gameWS with
   | some _ => [Step.closeGameWS, Step.setGameWS none]
   | none => []) ++
  (match s.lobbyWS with
   | some _ => [Step.closeLobbyWS, Step.setLobbyWS none]
   | none => []) ++
  [Step.setGameState none, Step.setLobby none, Step.setGameId none, Step.setError none]

/-- Messages of the game WebSocket (`/ws/game/{id}`). -/
inductive GameWSMessage where
  | game_update (data : GameState)
  | other (type : String)
deriving DecidableEq, Repr

/-- The game WebSocket `onmessage` handler: on `game_update`, store the
snapshot, and store its id when the id is truthy.  (The `player_exited`
wrapper added by `GameRoomPage` only shows a transient banner and then
delegates to this handler.) -/
def gameWS_onmessage (msg : GameWSMessage) : List Step :=
  match msg with
  | .game_update data =>
      [Step.setGameState (some data)] ++
      (if data.id != "" then [Step.setGameId (some data.id)] else [])
  | .other _ => []

/-- Messages of the lobby WebSocket (`/ws/lobby/{id}`). -/
inductive LobbyWSMessage where
  | lobby_update (data : LobbyGame)
  | lobby_cancelled
  | other (type : String)
deriving DecidableEq, Repr

/-- The lobby WebSocket `onmessage` handler.  On `lobby_update`: store the
lobby; if it is started with a truthy game id, store the game id and fetch
the fresh game snapshot (a fetch failure is caught and only logged).  On
`lobby_cancelled`: set the cancellation error message, then `quitGame()`
(which in turn nulls the error again). -/
def lobbyWS_onmessage (backend : Backend) (s : ProviderState) (msg : LobbyWSMessage) :
    List Step :=
  match msg with
  | .lobby_update updatedLobby =>
      [Step.setLobby (some updatedLobby)] ++
      (if jsTruthyBool updatedLobby.started && jsTruthyStr updatedLobby.game_id then
        match updatedLobby.game_id with
        | some gid =>
            [Step.setGameId (some gid), Step.request (Request.getGame gid)] ++
            (match backend.getGame gid with
             | .ok freshGame => [Step.setGameState (some freshGame)]
             | .error _ => [])
        | none => []
      else [])
  | .lobby_cancelled =>
      [Step.setError
        (some "The host has cancelled the game room. Any entry fees have been refunded.")] ++
      quitGameSteps s
  | .other _ => []

/-! ## Polling fallback -/

/-- Whitespace as `String.prototype.trim` sees it (the characters relevant
to display names). -/
def isJsSpace (c : Char) : Bool :=
  c == ' ' || c == '\t' || c == '\n' || c == '\r' || c == '\x0b' || c == '\x0c'

/-- `name.trim()`, computed structurally over the character list. -/
def jsTrim (s : String) : String :=
  String.mk (((s.data.dropWhile isJsSpace).reverse.dropWhile isJsSpace).reverse)

/-- `name.toLowerCase()`, computed structurally over the character list. -/
def jsToLowerCase (s : String) : String :=
  String.mk (s.data.map Char.toLower)

/-- `playerName?.trim().toLowerCase() || ''`. -/
def playerNameToMatch (playerName : String) : String :=
  jsToLowerCase (jsTrim playerName)

/-- `players.find(p => p.name.trim().toLowerCase() === nameToMatch)`. -/
def findPlayer (players : List Player) (nameToMatch : String) : Option Player :=
  players.find? (fun p => jsToLowerCase (jsTrim p.name) == nameToMatch)

/-- The polling interval passed to `setInterval`. -/
def pollIntervalMs : Nat := 3000

/-- `gameState?.mode === 'multiplayer' && (!gameWS || gameWS.readyState !== WebSocket.OPEN)`. -/
def isMultiplayerWithoutWS (s : ProviderState) : Bool :=
  (match s.gameState with
   | some gs => gs.mode == "multiplayer"
   | none => false) &&
  (match s.gameWS with
   | none => true
   | some ws => ws.readyState != WS_OPEN)

/-- `gameState && !playerInGame && gameState.mode === 'multiplayer'`. -/
def shouldPollForPlayer (s : ProviderState) (playerName : String) : Bool :=
  s.gameState.isSome &&
  (match s.gameState with
   | some gs => (findPlayer gs.players (playerNameToMatch playerName)).isNone
   | none => false) &&
  (match s.gameState with
   | some gs => gs.mode == "multiplayer"
   | none => false)

/-- The lobby half of the interval body: `if (lobby && !lobby.started)`,
poll `GET /lobby/:id` and, when the fetched lobby has started with a game
id, store the game id and fetch/store the game.  The inner `try` swallows
the branch's failures; a falsy lobby body is stored before the subsequent
property access faults. -/
def pollLobbyBranch (backend : Backend) (s : ProviderState) : List Step :=
  match s.lobby with
  | some lobby =>
      if !(jsTruthyBool lobby.started) then
        [Step.request (Request.getLobby lobby.id)] ++
        (match backend.getLobby lobby.id with
         | .ok currentLobby? =>
             [Step.setLobby currentLobby?] ++
             (match currentLobby? with
              | some currentLobby =>
                  if jsTruthyBool currentLobby.started &&
                      jsTruthyStr currentLobby.game_id then
                    match currentLobby.game_id with
                    | some gid =>
                        [Step.setGameId (some gid),
                         Step.request (Request.getGame gid)] ++
                        (match backend.getGame gid with
                         | .ok game => [Step.setGameState (some game)]
                         | .error _ => [])
                    | none => []
                  else []
              | none => [])
         | .error _ => [])
      else []
  | none => []

/-- The game half of the interval body: `if (gameId)`, re-fetch the game
when the push channel is missing/not open or the local player is missing
from the stored roster, and store the fetched snapshot only when the local
player appears in it or the poll was triggered by the roster miss. -/
def pollGameBranch (backend : Backend) (playerName : String) (s : ProviderState) :
    List Step :=
  match s.gameId with
  | some gid =>
      if isMultiplayerWithoutWS s || shouldPollForPlayer s playerName then
        [Step.request (Request.getGame gid)] ++
        (match backend.getGame gid with
         | .ok game =>
             if (findPlayer game.players (playerNameToMatch playerName)).isSome ||
                 shouldPollForPlayer s playerName then
               [Step.setGameState (some game)]
             else []
         | .error _ => [])
      else []
  | none => []

/-- One firing of the combined 3-second polling interval: the interval is
only installed while a lobby or a game id is held; within a firing, both
branches read the render snapshot the interval closure captured. -/
def pollTick (backend : Backend) (playerName : String) (s : ProviderState) : List Step :=
  if s.lobby.isNone && s.gameId.isNone then [] else
  pollLobbyBranch backend s ++ pollGameBranch backend playerName s

/-! ## Rehydration from the URL (`tryRecover`) -/

/-- `path.startsWith(pre)`, computed structurally over the character lists. -/
def strStartsWith (path pre : String) : Bool :=
  path.data.take pre.data.length == pre.data

/-- `path.split(pre)[1]?.split('/')[0]` for a `path` that starts with `pre`:
the segment between the marker and the next `/`. -/
def extractIdAfter (path pre : String) : String :=
  String.mk ((path.data.drop pre.data.length).takeWhile (fun c => c != '/'))

/-- The `catch` block of `tryRecover`: record the failure message and clear
all session state so children do not use stale data. -/
def rehydrationCatchSteps (msg : String) : List Step :=
  [Step.setError (some msg), Step.setLobby none, Step.setGameState none,
   Step.setGameId none]

/-- `tryRecover`: on mount (and path change), if the path embeds a lobby or
game id that the state does not already match, fetch that entity directly;
install it on success (for a started lobby, also fetch and install its game),
and on any failure clear lobby, game state and game id and record the error.
`setIsRehydrating false` at the end stands for the delayed
`setTimeout(() => setIsRehydrating(false), 500)` of the `finally` block. -/
def tryRecover (backend : Backend) (pathname : String) (s : ProviderState) : List Step :=
  let isLobbyPath := strStartsWith pathname "/lobby/"
  let isGamePath := strStartsWith pathname "/game/"
  if !isLobbyPath && !isGamePath then [Step.setIsRehydrating false]
  else
    let lobbyIdFromUrl := extractIdAfter pathname "/lobby/"
    let gameIdFromUrl := extractIdAfter pathname "/game/"
    if isLobbyPath &&
        (match s.lobby with
         | some l => l.id == lobbyIdFromUrl
         | none => false) then
      [Step.setIsRehydrating false]
    else if isGamePath &&
        (match s.gameId with
         | some g => g == gameIdFromUrl
         | none => false) then
      [Step.setIsRehydrating false]
    else
      [Step.setIsRehydrating true, Step.setError none] ++
      (if isLobbyPath && lobbyIdFromUrl != "" then
        [Step.request (Request.getLobby lobbyIdFromUrl)] ++
        (match backend.getLobby lobbyIdFromUrl with
         | .ok (some lobbyData) =>
             [Step.setLobby (some lobbyData)] ++
             (if jsTruthyBool lobbyData.started && jsTruthyStr lobbyData.game_id then
               match lobbyData.game_id with
               | some gid =>
                   [Step.request (Request.getGame gid)] ++
                   (match backend.getGame gid with
                    | .ok gameData =>
                        [Step.setGameState (some gameData), Step.setGameId (some gid)]
                    | .error e => rehydrationCatchSteps e)
               | none => []
             else [])
         | .ok none => rehydrationCatchSteps "Lobby not found"
         | .error e => rehydrationCatchSteps e)
      else if isGamePath && gameIdFromUrl != "" then
        [Step.request (Request.getGame gameIdFromUrl)] ++
        (match backend.getGame gameIdFromUrl with
         | .ok gameData =>
             [Step.setGameState (some gameData), Step.setGameId (some gameIdFromUrl)]
         | .error e => rehydrationCatchSteps e)
      else []) ++
      [Step.setIsRehydrating false]

/-! ## Session-creating and turn actions -/

/-- `createLobby` (GameProvider): force-reset the previous session, then
create the lobby (requires a logged-in user); the catch branch records the
failure message (both the wallet and the generic arm call `setError(msg)`). -/
def createLobbyTrace (backend : Backend) (currentUserUid : Option String)
    (playerName : String) (numPlayers : Nat) (entryFee : Int) : List Step :=
  [Step.setGameState none, Step.setGameId none, Step.setLobby none,
   Step.setLoading .starting true, Step.setError none] ++
  (match currentUserUid with
   | none => [Step.setError (some "User must be logged in to create a game")]
   | some uid =>
       [Step.request (Request.createLobby playerName uid numPlayers entryFee)] ++
       (match backend.createLobby playerName uid numPlayers entryFee with
        | .ok newLobby =>
            [Step.setLobby (some newLobby), Step.setGameId none, Step.setGameState none]
        | .error msg => [Step.setError (some msg)])) ++
  [Step.setLoading .starting false]

/-- `joinLobby` (GameProvider).  The delayed one-off re-fetch scheduled when
the joining player is missing from the returned game (a 1-second
`setTimeout`) is elided; it only replays a `getGame`/`setGameState` pair. -/
def joinLobbyTrace (backend : Backend) (currentUserUid : Option String)
    (playerName lobbyId : String) : List Step :=
  [Step.setLoading .joining true, Step.setError none] ++
  (match currentUserUid with
   | none => [Step.setError (some "User must be logged in to join a game")]
   | some uid =>
       [Step.request (Request.joinLobby lobbyId playerName uid)] ++
       (match backend.joinLobby lobbyId playerName uid with
        | .ok resp =>
            [Step.setLobby (some resp.1)] ++
            (match resp.2 with
             | some game => [Step.setGameState (some game), Step.setGameId (some game.id)]
             | none => [])
        | .error msg => [Step.setError (some msg)])) ++
  [Step.setLoading .joining false]

/-- `startTutorial`: set the tutorial flags, force-reset the previous
session, then request a tutorial game and install it. -/
def startTutorialTrace (backend : Backend) (currentUserUid : Option String)
    (playerName : String) : List Step :=
  [Step.setIsTutorial true, Step.setTutorialStep 0, Step.setGuideVisible true,
   Step.setGameState none, Step.setGameId none, Step.setLobby none,
   Step.setLoading .starting true,
   Step.request (Request.createNewGame "tutorial" playerName (currentUserUid.getD "") 1 0)] ++
  (match backend.createNewGame "tutorial" playerName (currentUserUid.getD "") 1 0 with
   | .ok game => [Step.setGameState (some game), Step.setGameId (some game.id)]
   | .error msg => [Step.setError (some msg)]) ++
  [Step.setLoading .starting false]

/-- The part of `drawCard` before its `await`: it reads the `gameState` the
`useCallback` closure captured; with no captured game it returns early (the
`finally` still clears the flag), otherwise it issues the request and
suspends. -/
def drawCardBegin (capturedGameState : Option GameState) : List Step :=
  [Step.setLoading .drawing true, Step.setError none] ++
  (match capturedGameState with
   | none => [Step.setLoading .drawing false]
   | some gs => [Step.request (Request.drawCard gs.id)])

/-- The continuation of `drawCard` after its `await` resolves: store the
response (or the failure message) and clear the flag.  The continuation
consults no current state before writing. -/
def drawCardResolve (result : Except String GameState) : List Step :=
  (match result with
   | .ok newState => [Step.setGameState (some newState)]
   | .error msg => [Step.setError (some msg)]) ++
  [Step.setLoading .drawing false]

/-- The part of `discardCard` before its `await` (mirrors `drawCardBegin`). -/
def discardCardBegin (capturedGameState : Option GameState) (index : Nat) : List Step :=
  [Step.setLoading .discarding true, Step.setError none] ++
  (match capturedGameState with
   | none => [Step.setLoading .discarding false]
   | some gs => [Step.request (Request.discardCard gs.id index)])

/-- The continuation of `discardCard` after its `await` resolves. -/
def discardCardResolve (result : Except String GameState) : List Step :=
  (match result with
   | .ok newState => [Step.setGameState (some newState)]
   | .error msg => [Step.setError (some msg)]) ++
  [Step.setLoading .discarding false]

/-! ## Quit paths -/

/-- `handleConfirmQuit` (EnhancedBottomMenu): try to notify the server via
`POST /game/:id/quit` when a game id and a logged-in user are present — the
empty `catch` swallows any failure — then close the confirm modal, tear the
session down via `quitGame()` and navigate home. -/
def handleConfirmQuitTrace (backend : Backend) (gameId currentUserUid : Option String)
    (s : ProviderState) : List Step :=
  (match gameId, currentUserUid with
   | some gid, some uid =>
       [Step.request (Request.quitGame gid uid)] ++
       (match backend.quitGame gid uid with
        | .ok _ => []
        | .error _ => [])
   | _, _ => []) ++
  [Step.setShowQuitConfirm false] ++
  quitGameSteps s ++
  [Step.navigate "/"]

/-- `handleQuitGame` (GameRoomPage): announce the exit over the game
WebSocket when it is open, then tear the session down via `quitGame()` and
navigate home (the `isQuittingRef` guard only suppresses the lobby→game
navigation effect). -/
def handleQuitGameTrace (playerName : String) (s : ProviderState) : List Step :=
  (match s.gameWS with
   | some ws =>
       if ws.readyState == WS_OPEN && playerName != "" then [Step.wsSend "player_exit"]
       else []
   | none => []) ++
  quitGameSteps s ++
  [Step.navigate "/"]

/-! ## Multiplayer lobby page (balance gating) -/

/-- The slice of the Firestore user document the page reads. -/
structure UserData where
  wallet_balance : Option Int
deriving DecidableEq, Repr

/-- The local state of `MultiplayerLobbyPage` driving the modal. -/
structure MultiplayerPageState where
  isBalanceModalOpen : Bool
  requiredFee : Int
deriving DecidableEq, Repr

/-- The props `MultiplayerLobbyPage` passes to `InsufficientFundsModal`. -/
structure InsufficientFundsModalProps where
  isOpen : Bool
  requiredAmount : Int
  currentBalance : Int
deriving DecidableEq, Repr

/-- `userData?.wallet_balance || 0`. -/
def cachedBalance (userData : Option UserData) : Int :=
  jsOrZero (userData.bind (·.wallet_balance))

/-- `handleCreateLobby` (MultiplayerLobbyPage): when the cached wallet
balance is below the entry fee, open the insufficient-funds modal with that
fee and issue nothing; otherwise run the context `createLobby` and navigate
into the new lobby on success. -/
def handleCreateLobby (backend : Backend) (userData : Option UserData)
    (currentUserUid : Option String) (playerName : String) (numPlayers : Nat)
    (entryFee : Int) (page : MultiplayerPageState) :
    MultiplayerPageState × List Step :=
  let balance := cachedBalance userData
  if balance < entryFee then
    ({ page with requiredFee := entryFee, isBalanceModalOpen := true }, [])
  else
    (page,
     createLobbyTrace backend currentUserUid playerName numPlayers entryFee ++
     (match currentUserUid with
      | none => []
      | some uid =>
          match backend.createLobby playerName uid numPlayers entryFee with
          | .ok newLobby => [Step.navigate ("/lobby/" ++ newLobby.id)]
          | .error _ => []))

/-- `handleJoinLobby` (MultiplayerLobbyPage): compute the listed lobby's fee
(`targetLobby?.entry_fee || 0`); when the cached balance is below it, open
the modal with that fee and issue nothing; otherwise run the context
`joinLobby` and navigate on success. -/
def handleJoinLobby (backend : Backend) (userData : Option UserData)
    (currentUserUid : Option String) (playerName : String)
    (lobbies : List LobbyGame) (lobbyId : String) (page : MultiplayerPageState) :
    MultiplayerPageState × List Step :=
  let targetLobby := lobbies.find? (fun l => l.id == lobbyId)
  let fee := jsOrZero (targetLobby.map (·.entry_fee))
  let balance := cachedBalance userData
  if balance < fee then
    ({ page with requiredFee := fee, isBalanceModalOpen := true }, [])
  else
    (page,
     joinLobbyTrace backend currentUserUid playerName lobbyId ++
     (match currentUserUid with
      | none => []
      | some uid =>
          match backend.joinLobby lobbyId playerName uid with
          | .ok _ =>
              if (match targetLobby with
                  | some l => jsTruthyBool l.started && jsTruthyStr l.game_id
                  | none => false) then
                match targetLobby with
                | some l => [Step.navigate ("/game/" ++ l.game_id.getD "")]
                | none => []
              else [Step.navigate ("/lobby/" ++ lobbyId)]
          | .error _ => []))

/-- How `MultiplayerLobbyPage` renders `InsufficientFundsModal`. -/
def renderInsufficientFundsModal (page : MultiplayerPageState)
    (userData : Option UserData) : InsufficientFundsModalProps :=
  { isOpen := page.isBalanceModalOpen
  , requiredAmount := page.requiredFee
  , currentBalance := cachedBalance userData }

/-! ## GameTable action gating -/

/-- `canDraw` (GameTable): `!loadingStates.drawing && currentPlayer.name ===
playerName && !isGameOver && !state.has_drawn`, where `currentPlayer` is
`state.players[state.current_player]` and `isGameOver = state.game_over`. -/
def canDraw (state : GameState) (currentPlayer : Player) (playerName : String)
    (drawing : Bool) : Bool :=
  !drawing && currentPlayer.name == playerName && !(jsTruthyBool state.game_over) &&
    !state.has_drawn

/-- The `disabled` condition of a card in the local player's hand
(GameTable), where `yourPlayer` is the roster entry whose trimmed,
lower-cased name matches the local player's. -/
def handCardDisabled (state : GameState) (currentPlayer yourPlayer : Player)
    (discarding : Bool) (discardingCardIndex : Option Nat)
    (isDealing isDrawing : Bool) : Bool :=
  !state.has_drawn || currentPlayer.is_cpu || currentPlayer.name != yourPlayer.name ||
    discarding || discardingCardIndex.isSome || isDealing || isDrawing

/-! ## Trace helpers -/

/-- Is this step a network request at all? -/
def Step.isRequest : Step → Bool
  | .request _ => true
  | _ => false

/-- Is this step a router navigation? -/
def Step.isNavigate : Step → Bool
  | .navigate _ => true
  | _ => false

/-- Is this step a `GET /game/:id` request? -/
def Step.isGetGameReq : Step → Bool
  | .request (.getGame _) => true
  | _ => false

/-- Is this step a `GET /lobby/:id` request? -/
def Step.isGetLobbyReq : Step → Bool
  | .request (.getLobby _) => true
  | _ => false

/-- The steps an operation performs before its first network request. -/
def stepsBeforeFirstRequest (t : List Step) : List Step :=
  t.takeWhile (fun st => !st.isRequest)

/-- Does the trace fragment contain the three session resets
(`setGameState(null)`, `setGameId(null)`, `setLobby(null)`)? -/
def hasSessionResets (t : List Step) : Bool :=
  t.contains (Step.setGameState none) && t.contains (Step.setGameId none) &&
    t.contains (Step.setLobby none)

/-- Process a list of lobby WebSocket messages in arrival order, returning
the accumulated trace and the final state. -/
def processLobbyMessages (backend : Backend) (s : ProviderState) :
    List LobbyWSMessage → List Step × ProviderState
  | [] => ([], s)
  | msg :: rest =>
      let t := lobbyWS_onmessage backend s msg
      let s' := applySteps s t
      let (t', s'') := processLobbyMessages backend s' rest
      (t ++ t', s'')

/-- How many `GET /game/:id` fetches a trace issues. -/
def countGameFetches (t : List Step) : Nat :=
  t.countP (fun st => st.isGetGameReq)

/-! ## Concrete fixtures for counterexamples and witnesses -/

def noLoading : LoadingStates :=
  { starting := false, joining := false, drawing := false, discarding := false,
    cpuMoving := false }

/-- A provider state with nothing tracked (fresh mount). -/
def freshState : ProviderState :=
  { gameState := none, gameId := none, lobby := none, error := none,
    loadingStates := noLoading, gameWS := none, lobbyWS := none,
    isRehydrating := true, isTutorial := false, tutorialStep := 0,
    isGuideVisible := true }

/-- A backend whose every endpoint fails; concrete backends override the
endpoints a scenario exercises. -/
def failingBackend : Backend :=
  { getGame := fun _ => .error "getGame failed: 404 Not Found"
  , getLobby := fun _ => .error "getLobby failed: 404 Not Found"
  , createLobby := fun _ _ _ _ => .error "createLobby failed"
  , joinLobby := fun _ _ _ => .error "joinLobby failed"
  , createNewGame := fun _ _ _ _ _ => .error "createNewGame failed"
  , drawCard := fun _ => .error "drawCard failed"
  , discardCard := fun _ _ => .error "discardCard failed"
  , quitGame := fun _ _ => .error "quitGame failed" }

def alice : Player := { name := "Alice", hand := [], is_cpu := false, wallet := 0 }

def bob : Player := { name := "Bob", hand := [], is_cpu := false, wallet := 0 }

/-- A finished snapshot of game `G1`. -/
def gOver : GameState :=
  { players := [alice, bob], pot := [], deck := [], current_player := 0,
    has_drawn := false, mode := "multiplayer", id := "G1", max_players := 2,
    pot_amount := 200, entry_fee := 100, winner := some "Alice",
    game_over := some true }

/-- A stale pre-finish snapshot of the same game `G1`. -/
def gLive : GameState :=
  { players := [alice, bob], pot := [], deck := [], current_player := 1,
    has_drawn := false, mode := "multiplayer", id := "G1", max_players := 2,
    pot_amount := 200, entry_fee := 100, game_over := some false }

/-! ## Claim C1 — one-way game-over latch -/

/-- Claim C1, counterexample.  The game WebSocket handler stores every
`game_update` snapshot unconditionally: with a `game_over = true` snapshot of
game `G1` already stored, a later `game_update` for the same id with
`game_over = false` replaces the stored state and moves the rendered
projection back out of the game-over state — there is no one-way latch. -/
theorem gameOverLatch_violated :
    (jsTruthyBool gOver.game_over = true ∧ gLive.id = gOver.id ∧
     jsTruthyBool gLive.game_over = false) ∧
    (applySteps { freshState with gameState := some gOver, gameId := some "G1" }
        (gameWS_onmessage (.game_update gLive))).gameState = some gLive ∧
    jsTruthyBool
      (((applySteps { freshState with gameState := some gOver, gameId := some "G1" }
          (gameWS_onmessage (.game_update gLive))).gameState.bind
        (·.game_over))) = false := by
  decide

/-- Claim C1, amended.  The reconciler keeps no game-over latch: whatever the
stored snapshot says — in particular when it has `game_over = true` — any
later `game_update` snapshot for the same game id, including one with
`game_over = false`, fully replaces the stored game state. -/
theorem gameUpdate_unconditional_replace (s : ProviderState) (g g' : GameState)
    (hstored : s.gameState = some g) (hover : jsTruthyBool g.game_over = true)
    (hid : g'.id = g.id) (hlive : jsTruthyBool g'.game_over = false) :
    (applySteps s (gameWS_onmessage (.game_update g'))).gameState = some g' := by
  cases h : (g'.id != "") <;>
    simp [gameWS_onmessage, applySteps, applyStep, h]

/-- Witness for `gameUpdate_unconditional_replace` at the concrete snapshots
`gOver`/`gLive`. -/
theorem gameUpdate_unconditional_replace_witness :
    jsTruthyBool gOver.game_over = true ∧ jsTruthyBool gLive.game_over = false ∧
    (applySteps { freshState with gameState := some gOver }
        (gameWS_onmessage (.game_update gLive))).gameState = some gLive :=
  ⟨by decide, by decide,
   gameUpdate_unconditional_replace
     { freshState with gameState := some gOver } gOver gLive rfl (by decide)
     (by decide) (by decide)⟩

/-! ## Claim C2 — full-snapshot replacement -/

/-- A multiplayer game snapshot of `G2` whose roster holds the local player. -/
def gAlice : GameState :=
  { players := [alice], pot := [], deck := [], current_player := 0,
    has_drawn := false, mode := "multiplayer", id := "G2", max_players := 2,
    pot_amount := 0, entry_fee := 0 }

/-- A later snapshot of the same game `G2` from which the local player is
missing. -/
def gNoAlice : GameState := { gAlice with players := [bob] }

/-- In-game state: tracking `G2` with the push channel gone. -/
def sPollDrop : ProviderState :=
  { freshState with
      gameState := some gAlice
      gameId := some "G2"
      isRehydrating := false }

def backendDrop : Backend :=
  { failingBackend with getGame := fun _ => .ok gNoAlice }

/-- Claim C2, counterexample.  A snapshot returned by the polling fallback is
not always applied: with the push channel gone (so the poll fires) and the
local player present in the stored roster, a polled snapshot in which the
local player is missing is discarded — the local projection keeps the old
snapshot, so not every received snapshot replaces it. -/
theorem pollSnapshot_dropped :
    (pollTick backendDrop "Alice" sPollDrop).contains
        (Step.request (Request.getGame "G2")) = true ∧
    backendDrop.getGame "G2" = .ok gNoAlice ∧
    (applySteps sPollDrop (pollTick backendDrop "Alice" sPollDrop)).gameState
      = some gAlice ∧
    (applySteps sPollDrop (pollTick backendDrop "Alice" sPollDrop)).gameState
      ≠ some gNoAlice := by
  exact ⟨by decide, rfl, by decide, by decide⟩

/-- Claim C2, amended.  Push snapshots always fully replace the local
projection (a `game_update` replaces the stored game state with exactly the
received snapshot, a `lobby_update` replaces the stored lobby likewise), and
a polled game snapshot, when it is applied, also fully replaces the stored
game state — but it is applied only when the local player appears in it or
the poll was triggered by the local player's absence from the stored
roster. -/
theorem snapshot_replacement_policy (backend : Backend) (pn : String)
    (s : ProviderState) (g : GameState) (gid : String)
    (hgid : s.gameId = some gid) (hlobby : s.lobby = none)
    (hok : backend.getGame gid = .ok g) :
    (applySteps s (gameWS_onmessage (.game_update g))).gameState = some g
    ∧ (∀ L : LobbyGame,
        (applySteps s (lobbyWS_onmessage backend s (.lobby_update L))).lobby = some L)
    ∧ (applySteps s (pollTick backend pn s)).gameState =
        (if (isMultiplayerWithoutWS s || shouldPollForPlayer s pn) &&
            ((findPlayer g.players (playerNameToMatch pn)).isSome ||
              shouldPollForPlayer s pn)
         then some g else s.gameState) := by
  refine ⟨?_, ?_, ?_⟩
  · cases h : (g.id != "") <;> simp [gameWS_onmessage, applySteps, applyStep, h]
  · intro L
    rcases hgl : L.game_id with _ | gid'
    · cases hs : jsTruthyBool L.started <;>
        simp [lobbyWS_onmessage, hgl, hs, jsTruthyStr, applySteps, applyStep]
    · cases hs : jsTruthyBool L.started
      · simp [lobbyWS_onmessage, hgl, hs, applySteps, applyStep]
      · by_cases hne : gid' = ""
        · simp [lobbyWS_onmessage, hgl, hs, hne, jsTruthyStr, applySteps, applyStep]
        · cases hbg : backend.getGame gid' <;>
            simp [lobbyWS_onmessage, hgl, hs, hne, jsTruthyStr, hbg, applySteps,
              applyStep]
  · cases hc : (isMultiplayerWithoutWS s || shouldPollForPlayer s pn)
    · simp [pollTick, hlobby, hgid, pollLobbyBranch, pollGameBranch, hc,
        applySteps, applyStep]
    · cases hd : ((findPlayer g.players (playerNameToMatch pn)).isSome ||
          shouldPollForPlayer s pn) <;>
        simp [pollTick, hlobby, hgid, pollLobbyBranch, pollGameBranch, hc, hok,
          hd, applySteps, applyStep]

/-- Witness for `snapshot_replacement_policy` at a concrete in-game state
where the poll applies the fetched snapshot. -/
theorem snapshot_replacement_policy_witness :
    (applySteps { freshState with gameId := some "G2" }
        (pollTick { failingBackend with getGame := fun _ => .ok gAlice } "Alice"
          { freshState with gameId := some "G2" })).gameState =
      (if (isMultiplayerWithoutWS { freshState with gameId := some "G2" } ||
            shouldPollForPlayer { freshState with gameId := some "G2" } "Alice") &&
          ((findPlayer gAlice.players (playerNameToMatch "Alice")).isSome ||
            shouldPollForPlayer { freshState with gameId := some "G2" } "Alice")
       then some gAlice else ({ freshState with gameId := some "G2" } : ProviderState).gameState) :=
  (snapshot_replacement_policy
    { failingBackend with getGame := fun _ => .ok gAlice } "Alice"
    { freshState with gameId := some "G2" } gAlice "G2" rfl rfl rfl).2.2

/-! ## Claim C3 — rehydration -/

/-- Claim C3, counterexample.  When rehydration of `/game/gX` fails (the
fetch rejects), `tryRecover` does clear lobby, game state and game id and
records the failure — but it navigates nowhere: its trace contains no
navigation at all, so the user is not returned toward home (the game room
page is left showing its loading overlay). -/
theorem rehydrationFailure_no_home_navigation :
    (tryRecover failingBackend "/game/gX" freshState).contains
        (Step.request (Request.getGame "gX")) = true ∧
    ((tryRecover failingBackend "/game/gX" freshState).all
        (fun st => ! st.isNavigate)) = true ∧
    (applySteps freshState (tryRecover failingBackend "/game/gX" freshState)).gameState
        = none ∧
    (applySteps freshState (tryRecover failingBackend "/game/gX" freshState)).lobby
        = none ∧
    (applySteps freshState (tryRecover failingBackend "/game/gX" freshState)).gameId
        = none ∧
    (applySteps freshState (tryRecover failingBackend "/game/gX" freshState)).error
        = some "getGame failed: 404 Not Found" := by
  decide

/-- Claim C3, amended.  On mount with an id embedded in the path (and no
session state held yet), the reconciler fetches that entity directly —
`getLobby` for `/lobby/` paths, `getGame` for `/game/` paths; on success it
installs the fetched state, and on any failure it clears lobby, game state
and game id and records the error (without navigating the user home). -/
theorem tryRecover_fetch_install_clear (backend : Backend) (s : ProviderState)
    (path lid gid : String)
    (hl : s.lobby = none) (hg : s.gameId = none) :
    (strStartsWith path "/lobby/" = true → strStartsWith path "/game/" = false →
     extractIdAfter path "/lobby/" = lid → (lid != "") = true →
     (tryRecover backend path s).contains (Step.request (Request.getLobby lid)) = true
     ∧ (∀ L, backend.getLobby lid = .ok (some L) → jsTruthyBool L.started = false →
         (applySteps s (tryRecover backend path s)).lobby = some L)
     ∧ (∀ e, backend.getLobby lid = .error e →
         (applySteps s (tryRecover backend path s)).lobby = none
         ∧ (applySteps s (tryRecover backend path s)).gameState = none
         ∧ (applySteps s (tryRecover backend path s)).gameId = none
         ∧ (applySteps s (tryRecover backend path s)).error = some e))
    ∧ (strStartsWith path "/game/" = true → strStartsWith path "/lobby/" = false →
       extractIdAfter path "/game/" = gid → (gid != "") = true →
       (tryRecover backend path s).contains (Step.request (Request.getGame gid)) = true
       ∧ (∀ g, backend.getGame gid = .ok g →
           (applySteps s (tryRecover backend path s)).gameState = some g
           ∧ (applySteps s (tryRecover backend path s)).gameId = some gid)
       ∧ (∀ e, backend.getGame gid = .error e →
           (applySteps s (tryRecover backend path s)).lobby = none
           ∧ (applySteps s (tryRecover backend path s)).gameState = none
           ∧ (applySteps s (tryRecover backend path s)).gameId = none
           ∧ (applySteps s (tryRecover backend path s)).error = some e)) := by
  constructor
  · intro hlp hgp hid hne
    refine ⟨?_, ?_, ?_⟩
    · rcases hres : backend.getLobby lid with e | L? <;>
        simp [tryRecover, hlp, hgp, hid, hne, hl, hg, hres]
    · intro L hres hstarted
      simp [tryRecover, hlp, hgp, hid, hne, hl, hg, hres, hstarted, applySteps,
        applyStep]
    · intro e hres
      simp [tryRecover, hlp, hgp, hid, hne, hl, hg, hres, rehydrationCatchSteps,
        applySteps, applyStep]
  · intro hgp hlp hid hne
    refine ⟨?_, ?_, ?_⟩
    · rcases hres : backend.getGame gid with e | g <;>
        simp [tryRecover, hlp, hgp, hid, hne, hl, hg, hres]
    · intro g hres
      simp [tryRecover, hlp, hgp, hid, hne, hl, hg, hres, applySteps, applyStep]
    · intro e hres
      simp [tryRecover, hlp, hgp, hid, hne, hl, hg, hres, rehydrationCatchSteps,
        applySteps, applyStep]

/-- Witness for `tryRecover_fetch_install_clear` on the concrete path
`/game/G1` with a backend that returns `gOver`. -/
theorem tryRecover_fetch_install_clear_witness :
    (applySteps freshState
        (tryRecover { failingBackend with getGame := fun _ => .ok gOver }
          "/game/G1" freshState)).gameState = some gOver ∧
    (applySteps freshState
        (tryRecover { failingBackend with getGame := fun _ => .ok gOver }
          "/game/G1" freshState)).gameId = some "G1" :=
  ((tryRecover_fetch_install_clear
      { failingBackend with getGame := fun _ => .ok gOver } freshState
      "/game/G1" "" "G1" rfl rfl).2 (by decide) (by decide) (by decide)
      (by decide)).2.1 gOver rfl

/-! ## Claim C4 — exactly-once lobby-to-game switch -/

/-- The game created when lobby `L4` starts. -/
def g4 : GameState :=
  { players := [alice, bob], pot := [], deck := [], current_player := 0,
    has_drawn := false, mode := "multiplayer", id := "G4", max_players := 2,
    pot_amount := 200, entry_fee := 100 }

/-- The started form of lobby `L4`, carrying its game id. -/
def L4 : LobbyGame :=
  { id := "L4", host := "Alice", players := ["Alice", "Bob"], max_players := 2,
    created_at := "now", started := some true, game_id := some "G4",
    entry_fee := 100, host_uid := "u1", player_uids := ["u1", "u2"] }

/-- Waiting in the not-yet-started lobby `L4`. -/
def sWaiting : ProviderState :=
  { freshState with
      lobby := some { L4 with started := some false, game_id := none }
      isRehydrating := false }

def backend4 : Backend :=
  { failingBackend with getGame := fun _ => .ok g4 }

/-- Claim C4, counterexample.  The push path is not deduplicated: two
identical `lobby_update` notifications of the same lobby-to-game transition
make the lobby WebSocket handler fetch the full game snapshot twice — the
fetch-then-switch does not happen exactly once per transition. -/
theorem duplicate_lobbyUpdate_double_fetch :
    countGameFetches
        (processLobbyMessages backend4 sWaiting
          [.lobby_update L4, .lobby_update L4]).1 = 2 ∧
    (processLobbyMessages backend4 sWaiting
        [.lobby_update L4, .lobby_update L4]).2.gameId = some "G4" := by
  decide

/-- Claim C4, amended.  On a started `lobby_update` the reconciler fetches
the game and switches its render target, and processing a duplicate of the
same notification leaves the state unchanged (the switch is idempotent on
state, though each duplicate re-issues the fetch); on the polling path the
transition fires at most once, because once the stored lobby is marked
started the lobby poll branch does nothing at all. -/
theorem lobbyToGame_switch_idempotent (backend : Backend) (s : ProviderState)
    (L : LobbyGame) (hstart : jsTruthyBool L.started = true) :
    (applySteps (applySteps s (lobbyWS_onmessage backend s (.lobby_update L)))
        (lobbyWS_onmessage backend
          (applySteps s (lobbyWS_onmessage backend s (.lobby_update L)))
          (.lobby_update L))
      = applySteps s (lobbyWS_onmessage backend s (.lobby_update L)))
    ∧ (∀ s' : ProviderState, s'.lobby = some L →
        pollLobbyBranch backend s' = []) := by
  constructor
  · rcases hgl : L.game_id with _ | gid'
    · simp [lobbyWS_onmessage, hgl, hstart, jsTruthyStr, applySteps, applyStep]
    · by_cases hne : gid' = ""
      · simp [lobbyWS_onmessage, hgl, hstart, hne, jsTruthyStr, applySteps,
          applyStep]
      · cases hbg : backend.getGame gid' <;>
          simp [lobbyWS_onmessage, hgl, hstart, hne, jsTruthyStr, hbg,
            applySteps, applyStep]
  · intro s' h
    simp [pollLobbyBranch, h, hstart]

/-- Witness for `lobbyToGame_switch_idempotent` at the concrete started
lobby `L4`. -/
theorem lobbyToGame_switch_idempotent_witness :
    jsTruthyBool L4.started = true ∧
    applySteps (applySteps sWaiting (lobbyWS_onmessage backend4 sWaiting (.lobby_update L4)))
        (lobbyWS_onmessage backend4
          (applySteps sWaiting (lobbyWS_onmessage backend4 sWaiting (.lobby_update L4)))
          (.lobby_update L4))
      = applySteps sWaiting (lobbyWS_onmessage backend4 sWaiting (.lobby_update L4)) :=
  ⟨by decide, (lobbyToGame_switch_idempotent backend4 sWaiting L4 (by decide)).1⟩

/-! ## Claim C5 — polling fallback -/

def carol : Player := { name := "Carol", hand := [], is_cpu := false, wallet := 0 }

def dave : Player := { name := "Dave", hand := [], is_cpu := false, wallet := 0 }

/-- The stored snapshot of game `G5`, local player `Carol` on the roster. -/
def g5stored : GameState :=
  { players := [carol, dave], pot := [], deck := [], current_player := 0,
    has_drawn := false, mode := "multiplayer", id := "G5", max_players := 2,
    pot_amount := 0, entry_fee := 0 }

/-- The polled snapshot of `G5`, in which `Carol` is missing. -/
def g5polled : GameState := { g5stored with players := [dave] }

/-- Tracking `G5` with the game WebSocket in `CLOSED` readyState (3). -/
def sPollClosed : ProviderState :=
  { freshState with
      gameState := some g5stored
      gameId := some "G5"
      gameWS := some { readyState := 3 }
      isRehydrating := false }

def backend5 : Backend :=
  { failingBackend with getGame := fun _ => .ok g5polled }

/-- Claim C5, counterexample.  With the push channel closed the poll does
fetch the tracked game, but the claim's "applied when the push channel is
closed" fails: because the local player is missing from the polled snapshot
while present in the stored roster, the fetched snapshot is discarded and
the local state keeps the old snapshot. -/
theorem pollFetch_not_applied_when_ws_closed :
    sPollClosed.gameWS = some { readyState := 3 } ∧ WS_OPEN = 1 ∧
    (pollTick backend5 "Carol" sPollClosed).contains
        (Step.request (Request.getGame "G5")) = true ∧
    backend5.getGame "G5" = .ok g5polled ∧
    (applySteps sPollClosed (pollTick backend5 "Carol" sPollClosed)).gameState
      = some g5stored := by
  exact ⟨rfl, rfl, by decide, rfl, by decide⟩

/-- Claim C5, amended.  The poll interval is a fixed 3000 ms.  In a firing,
the tracked game id is fetched exactly when the game is multiplayer with the
push channel absent or not confirmed open, or the local player (matched on
trimmed lower-cased name) is absent from the stored roster; a successfully
fetched snapshot is applied exactly when, in addition, the local player
appears in the fetched roster or the poll was triggered by that absence. -/
theorem polling_fallback_behavior (backend : Backend) (pn gid : String)
    (s : ProviderState) (hgid : s.gameId = some gid)
    (hsilent : s.lobby = none ∨
      ∃ L, s.lobby = some L ∧ jsTruthyBool L.started = true) :
    pollIntervalMs = 3000
    ∧ ((pollTick backend pn s).contains (Step.request (Request.getGame gid)) =
        (isMultiplayerWithoutWS s || shouldPollForPlayer s pn))
    ∧ (∀ g, backend.getGame gid = .ok g →
        (applySteps s (pollTick backend pn s)).gameState =
          (if (isMultiplayerWithoutWS s || shouldPollForPlayer s pn) &&
              ((findPlayer g.players (playerNameToMatch pn)).isSome ||
                shouldPollForPlayer s pn)
           then some g else s.gameState)) := by
  have hbranch : pollLobbyBranch backend s = [] := by
    rcases hsilent with h | ⟨L, hL, hs⟩
    · simp [pollLobbyBranch, h]
    · simp [pollLobbyBranch, hL, hs]
  refine ⟨rfl, ?_, ?_⟩
  · cases hc : (isMultiplayerWithoutWS s || shouldPollForPlayer s pn)
    · simp [pollTick, hgid, hbranch, pollGameBranch, hc]
    · rcases hres : backend.getGame gid with e | g
      · simp [pollTick, hgid, hbranch, pollGameBranch, hc, hres]
      · cases hd : ((findPlayer g.players (playerNameToMatch pn)).isSome ||
            shouldPollForPlayer s pn) <;>
          simp [pollTick, hgid, hbranch, pollGameBranch, hc, hres, hd]
  · intro g hres
    cases hc : (isMultiplayerWithoutWS s || shouldPollForPlayer s pn)
    · simp [pollTick, hgid, hbranch, pollGameBranch, hc, applySteps, applyStep]
    · cases hd : ((findPlayer g.players (playerNameToMatch pn)).isSome ||
          shouldPollForPlayer s pn) <;>
        simp [pollTick, hgid, hbranch, pollGameBranch, hc, hres, hd, applySteps,
          applyStep]

/-- Witness for `polling_fallback_behavior` at a concrete game-only state. -/
theorem polling_fallback_behavior_witness :
    pollIntervalMs = 3000 ∧
    (pollTick failingBackend "Alice" { freshState with gameId := some "G9" }).contains
        (Step.request (Request.getGame "G9")) =
      (isMultiplayerWithoutWS { freshState with gameId := some "G9" } ||
        shouldPollForPlayer { freshState with gameId := some "G9" } "Alice") :=
  ⟨(polling_fallback_behavior failingBackend "Alice" "G9"
      { freshState with gameId := some "G9" } rfl (Or.inl rfl)).1,
   (polling_fallback_behavior failingBackend "Alice" "G9"
      { freshState with gameId := some "G9" } rfl (Or.inl rfl)).2.1⟩

/-! ## Claim C6 — quit teardown despite server failure -/

theorem getLast?_cons_concat {α : Type} (a x : α) (l : List α) :
    (a :: (l ++ [x])).getLast? = some x := by
  rw [← List.cons_append]
  exact List.getLast?_concat _

/-- Claim C6.  For a user-initiated quit of an active game (a held game id,
logged-in user), the quit confirmation handler first issues the server quit
request, and then — whatever the outcome of that request — always tears the
session down: both WebSockets end closed (`none`) and game state, lobby,
game id and error are all cleared, and the trace ends by navigating away.
The game-room page's quit handler likewise always tears down and navigates
away. -/
theorem confirmQuit_teardown_always (backend : Backend) (gid uid pn : String)
    (s : ProviderState) :
    ((handleConfirmQuitTrace backend (some gid) (some uid) s).head? =
        some (Step.request (Request.quitGame gid uid)))
    ∧ ((applySteps s (handleConfirmQuitTrace backend (some gid) (some uid) s)).gameState = none
       ∧ (applySteps s (handleConfirmQuitTrace backend (some gid) (some uid) s)).lobby = none
       ∧ (applySteps s (handleConfirmQuitTrace backend (some gid) (some uid) s)).gameId = none
       ∧ (applySteps s (handleConfirmQuitTrace backend (some gid) (some uid) s)).error = none
       ∧ (applySteps s (handleConfirmQuitTrace backend (some gid) (some uid) s)).gameWS = none
       ∧ (applySteps s (handleConfirmQuitTrace backend (some gid) (some uid) s)).lobbyWS = none)
    ∧ ((handleConfirmQuitTrace backend (some gid) (some uid) s).getLast? =
        some (Step.navigate "/"))
    ∧ ((applySteps s (handleQuitGameTrace pn s)).gameState = none
       ∧ (applySteps s (handleQuitGameTrace pn s)).lobby = none
       ∧ (applySteps s (handleQuitGameTrace pn s)).gameId = none
       ∧ (applySteps s (handleQuitGameTrace pn s)).error = none
       ∧ (applySteps s (handleQuitGameTrace pn s)).gameWS = none
       ∧ (applySteps s (handleQuitGameTrace pn s)).lobbyWS = none)
    ∧ ((handleQuitGameTrace pn s).getLast? = some (Step.navigate "/")) := by
  refine ⟨?_, ?_, ?_, ?_, ?_⟩
  · rcases hq : backend.quitGame gid uid with e | u <;>
      simp [handleConfirmQuitTrace, hq]
  · rcases hq : backend.quitGame gid uid with e | u <;>
    rcases hgw : s.gameWS with _ | w <;>
    rcases hlw : s.lobbyWS with _ | w' <;>
      simp [handleConfirmQuitTrace, quitGameSteps, hq, hgw, hlw, applySteps,
        applyStep]
  · rcases hq : backend.quitGame gid uid with e | u <;>
      simp [handleConfirmQuitTrace, hq, getLast?_cons_concat]
  · rcases hgw : s.gameWS with _ | w
    · rcases hlw : s.lobbyWS with _ | w' <;>
        simp [handleQuitGameTrace, quitGameSteps, hgw, hlw, applySteps, applyStep]
    · cases hsd : (w.readyState == WS_OPEN && pn != "") <;>
      rcases hlw : s.lobbyWS with _ | w' <;>
        simp [handleQuitGameTrace, quitGameSteps, hgw, hlw, hsd, applySteps,
          applyStep]
  · rcases hgw : s.gameWS with _ | w
    · simp [handleQuitGameTrace, hgw, ← List.append_assoc, List.getLast?_concat]
    · cases hsd : (w.readyState == WS_OPEN && pn != "") <;>
        simp [handleQuitGameTrace, hgw, hsd, ← List.append_assoc,
          List.getLast?_concat, getLast?_cons_concat]

/-! ## Claim C7 — stale response discard after teardown -/

/-- A multiplayer snapshot of game `G7`. -/
def g7 : GameState :=
  { players := [alice, bob], pot := [], deck := [], current_player := 0,
    has_drawn := false, mode := "multiplayer", id := "G7", max_players := 2,
    pot_amount := 0, entry_fee := 0 }

/-- The server's response to the draw on `G7`. -/
def g7resp : GameState := { g7 with has_drawn := true }

/-- Mid-game state tracking `G7`: here the user clicks draw. -/
def s7a : ProviderState :=
  { freshState with
      gameState := some g7
      gameId := some "G7"
      isRehydrating := false }

/-- State after `drawCard` has issued its request and suspended. -/
def s7b : ProviderState := applySteps s7a (drawCardBegin s7a.gameState)

/-- State after `quitGame` tears the session down while the draw is in
flight. -/
def s7c : ProviderState := applySteps s7b (quitGameSteps s7b)

/-- State after the pending draw request resolves. -/
def s7d : ProviderState := applySteps s7c (drawCardResolve (.ok g7resp))

/-- Claim C7, counterexample.  A `drawCard` request issued before teardown
is not discarded when it resolves afterwards: after `quitGame` has cleared
game state, lobby and game id, the resolving continuation still writes the
server response into the projection (its body re-checks nothing after the
`await`). -/
theorem pending_draw_mutates_after_teardown :
    (drawCardBegin s7a.gameState).contains
        (Step.request (Request.drawCard "G7")) = true ∧
    s7c.gameState = none ∧ s7c.lobby = none ∧ s7c.gameId = none ∧
    s7d.gameState = some g7resp := by
  decide

/-- Claim C7, amended.  A `drawCard`/`discardCard` call made after teardown
(no captured game state) issues no request and leaves the projection
untouched; but a request already in flight at teardown time is not
discarded: when it resolves successfully its response is written into the
projection unconditionally. -/
theorem draw_discard_teardown_behavior (s : ProviderState) (g : GameState)
    (idx : Nat) :
    ((drawCardBegin none).all (fun st => ! st.isRequest) = true)
    ∧ ((applySteps s (drawCardBegin none)).gameState = s.gameState
       ∧ (applySteps s (drawCardBegin none)).lobby = s.lobby
       ∧ (applySteps s (drawCardBegin none)).gameId = s.gameId)
    ∧ ((discardCardBegin none idx).all (fun st => ! st.isRequest) = true)
    ∧ ((applySteps s (discardCardBegin none idx)).gameState = s.gameState
       ∧ (applySteps s (discardCardBegin none idx)).lobby = s.lobby
       ∧ (applySteps s (discardCardBegin none idx)).gameId = s.gameId)
    ∧ ((applySteps s (drawCardResolve (.ok g))).gameState = some g)
    ∧ ((applySteps s (discardCardResolve (.ok g))).gameState = some g) := by
  refine ⟨?_, ?_, ?_, ?_, ?_, ?_⟩ <;>
    simp [drawCardBegin, discardCardBegin, drawCardResolve, discardCardResolve,
      Step.isRequest, applySteps, applyStep]

/-! ## Claim C8 — UI action gating -/

/-- Claim C8.  In the game table, with `cp` the player at the current-turn
index and `yp` the roster entry matching the local player's name: the draw
action is enabled exactly when no draw is in flight, it is the local
player's turn, the game is not over and `has_drawn` is false; and a hand
card's discard click being enabled implies `has_drawn` is true, the current
player is not a CPU and is the local player, and no discard is in flight —
so an enabled draw cannot hit the `NotYourTurn`/`AlreadyDrawn` branches and
an enabled discard cannot hit the draw-before-discard branch. -/
theorem ui_action_gating (state : GameState) (cp yp : Player) (pn : String)
    (drawing discarding isDealing isDrawing : Bool) (dci : Option Nat)
    (hcp : state.players.get? state.current_player = some cp)
    (hyp : findPlayer state.players (playerNameToMatch pn) = some yp) :
    (canDraw state cp pn drawing = true ↔
      (drawing = false ∧ cp.name = pn ∧ jsTruthyBool state.game_over = false ∧
        state.has_drawn = false))
    ∧ (handCardDisabled state cp yp discarding dci isDealing isDrawing = false →
        (state.has_drawn = true ∧ cp.is_cpu = false ∧ cp.name = yp.name ∧
          discarding = false)) := by
  constructor
  · simp [canDraw, and_assoc]
  · intro h
    simp [handCardDisabled] at h
    tauto

/-- Witness for `ui_action_gating` at the concrete snapshot `gAlice` with
local player `Alice`. -/
theorem ui_action_gating_witness :
    canDraw gAlice alice "Alice" false = true ↔
      (false = false ∧ alice.name = "Alice" ∧ jsTruthyBool gAlice.game_over = false ∧
        gAlice.has_drawn = false) :=
  (ui_action_gating gAlice alice alice "Alice" false false false false none
    (by decide) (by decide)).1

/-! ## Claim C9 — insufficient-balance surfacing -/

/-- Claim C9.  When the cached wallet balance is below the entry fee, the
create handler issues nothing (its trace is empty — in particular no network
request) and the insufficient-funds modal is rendered open showing the
required fee and the cached balance; likewise the join handler with the
listed lobby's fee. -/
theorem insufficient_balance_no_request (backend : Backend)
    (userData : Option UserData) (uid? : Option String) (pn : String)
    (numPlayers : Nat) (entryFee : Int) (lobbies : List LobbyGame)
    (lobbyId : String) (page : MultiplayerPageState)
    (hcreate : cachedBalance userData < entryFee) :
    ((handleCreateLobby backend userData uid? pn numPlayers entryFee page).2 = []
     ∧ renderInsufficientFundsModal
         (handleCreateLobby backend userData uid? pn numPlayers entryFee page).1
         userData =
       { isOpen := true, requiredAmount := entryFee,
         currentBalance := cachedBalance userData })
    ∧ (∀ L, lobbies.find? (fun l => l.id == lobbyId) = some L →
        cachedBalance userData < jsOrZero (some L.entry_fee) →
        (handleJoinLobby backend userData uid? pn lobbies lobbyId page).2 = []
        ∧ renderInsufficientFundsModal
            (handleJoinLobby backend userData uid? pn lobbies lobbyId page).1
            userData =
          { isOpen := true, requiredAmount := jsOrZero (some L.entry_fee),
            currentBalance := cachedBalance userData }) := by
  constructor
  · simp [handleCreateLobby, hcreate, renderInsufficientFundsModal]
  · intro L hfind hfee
    simp [handleJoinLobby, hfind, hfee, renderInsufficientFundsModal]

/-- Witness for `insufficient_balance_no_request`: balance 50, fee 100. -/
theorem insufficient_balance_no_request_witness :
    cachedBalance (some { wallet_balance := some 50 }) < 100
    ∧ (handleCreateLobby failingBackend (some { wallet_balance := some 50 })
        (some "u1") "Alice" 2 100
        { isBalanceModalOpen := false, requiredFee := 0 }).2 = []
    ∧ renderInsufficientFundsModal
        (handleCreateLobby failingBackend (some { wallet_balance := some 50 })
          (some "u1") "Alice" 2 100
          { isBalanceModalOpen := false, requiredFee := 0 }).1
        (some { wallet_balance := some 50 }) =
      { isOpen := true, requiredAmount := 100,
        currentBalance := cachedBalance (some { wallet_balance := some 50 }) } :=
  ⟨by decide,
   (insufficient_balance_no_request failingBackend
      (some { wallet_balance := some 50 }) (some "u1") "Alice" 2 100 [] "L1"
      { isBalanceModalOpen := false, requiredFee := 0 } (by decide)).1⟩

/-! ## Claim C10 — session reset invariant -/

/-- Claim C10.  Both session-beginning operations — `createLobby` and
`startTutorial` — perform the three session resets (`setGameState(null)`,
`setGameId(null)`, `setLobby(null)`) strictly before their first network
request, for every backend, user and argument. -/
theorem session_reset_before_request (backend : Backend) (uid? : Option String)
    (pn : String) (numPlayers : Nat) (entryFee : Int) :
    hasSessionResets
      (stepsBeforeFirstRequest
        (createLobbyTrace backend uid? pn numPlayers entryFee)) = true
    ∧ hasSessionResets
        (stepsBeforeFirstRequest (startTutorialTrace backend uid? pn)) = true := by
  constructor <;>
    rcases uid? with _ | uid <;>
      simp [createLobbyTrace, startTutorialTrace, stepsBeforeFirstRequest,
        hasSessionResets, Step.isRequest, List.takeWhile]

end Njuka
